import Mathlib

/-!
Verification of the colibri icon resolution and caching engine.

Shallow embedding of the Rust sources:
  - `src/colibri/src/blockchain/utils.rs` (asset identifier parsing)
  - `src/colibri/src/icons.rs`            (cache store, CDN fetch, NFT fetch, encoding)
  - `src/colibri/src/api/icons.rs`        (check/get entry points, in-flight dedup)

Rust strings are modelled as `List Char` where the source iterates over
characters or splits on separators, and as `String` where only whole-string
equality matters.  External library functions (alloy's checksummed address
parsing, the md5 crate, HTTP fetches) are abstracted as function parameters:
the theorems quantify over them, and witnesses instantiate them concretely.
-/

namespace Colibri

/-- Model of Rust `str::split(c)`: splits at every occurrence of `c`,
    yielding `[[]]` on the empty string, exactly like Rust's iterator. -/
def splitChar (c : Char) : List Char → List (List Char)
  | [] => [[]]
  | x :: xs =>
    if x = c then [] :: splitChar c xs
    else
      match splitChar c xs with
      | [] => [[x]]
      | y :: ys => (x :: y) :: ys

/-- Model of Rust `str::splitn(2, c)`: splits at the first occurrence of `c`
    only; a string without `c` yields a single part. -/
def splitn2 (c : Char) (s : List Char) : List (List Char) :=
  let pre := s.takeWhile (fun x => x ≠ c)
  let rest := s.dropWhile (fun x => x ≠ c)
  match rest with
  | [] => [pre]
  | _ :: t => [pre, t]

/-- Model of Rust `str::parse::<u64>()`: optional leading `+`, then one or
    more ASCII digits, value must fit in 64 bits. -/
def parse_u64 (s : List Char) : Option Nat :=
  let ds := match s with
    | '+' :: t => t
    | _ => s
  if ds = [] then none
  else if ds.all (fun c => c.isDigit) then
    let n := ds.foldl (fun a c => a * 10 + (c.toNat - 48)) 0
    if n < 2 ^ 64 then some n else none
  else none

/-- Model of alloy's 20-byte EVM `Address`. -/
structure EvmAddress where
  bytes : List (Fin 256)
deriving DecidableEq, Repr

/-- Model of `AssetAddress` from `blockchain/utils.rs`. -/
inductive AssetAddress where
  | Evm (address : EvmAddress)
  | Solana (address : List Char)
deriving DecidableEq, Repr

/-- Model of `AssetIdentifier` from `blockchain/utils.rs`. -/
structure AssetIdentifier where
  chain_id : Nat
  contract_address : AssetAddress
  token_id : Option (List Char)
deriving DecidableEq, Repr

/-- Solana mainnet chain id constant from `blockchain/utils.rs`. -/
def SOLANA_CHAIN_ID : Nat := 1151111081099710

def SOLANA_ADDRESS_MIN_LENGTH : Nat := 32

def SOLANA_ADDRESS_MAX_LENGTH : Nat := 44

/-- Model of `parse_evm_identifier`.  The parameter `pc` abstracts alloy's
    `Address::parse_checksummed` (an external library function).  The source
    indexes `chain_parts[1]` directly after two `debug_assert`s; here the
    access is modelled with `get?`, and the theorem for claim C5 shows the
    access is in bounds (and the asserts hold) whenever this branch is
    entered, so the `none` fallback of that access is dead code. -/
def parse_evm_identifier (pc : List Char → Option EvmAddress)
    (parts : List (List Char)) : Option AssetIdentifier :=
  match parts with
  | p0 :: p1 :: rest =>
    match (splitn2 ':' p0).get? 1 with
    | none => none
    | some cid_str =>
      match parse_u64 cid_str with
      | none => none
      | some chain_id =>
        match splitn2 ':' p1 with
        | [_asset_type, contract_address_str] =>
          if contract_address_str = [] then none
          else
            match pc contract_address_str with
            | none => none
            | some contract_address =>
              some { chain_id := chain_id
                     contract_address := AssetAddress.Evm contract_address
                     token_id := rest.head? }
        | _ => none
  | _ => none

/-- Model of `parse_solana_identifier`. -/
def parse_solana_identifier (parts : List (List Char)) : Option AssetIdentifier :=
  match parts with
  | _ :: p1 :: _ =>
    match splitn2 ':' p1 with
    | [asset_type, contract_address] =>
      if asset_type = "token".toList ∨ asset_type = "nft".toList then
        if contract_address = [] ∨ contract_address.length < SOLANA_ADDRESS_MIN_LENGTH
            ∨ contract_address.length > SOLANA_ADDRESS_MAX_LENGTH then none
        else
          some { chain_id := SOLANA_CHAIN_ID
                 contract_address := AssetAddress.Solana contract_address
                 token_id := none }
      else none
    | _ => none
  | _ => none

/-- Model of `parse_asset_identifier` from `blockchain/utils.rs`. -/
def parse_asset_identifier (pc : List Char → Option EvmAddress)
    (identifier : List Char) : Option AssetIdentifier :=
  let parts := splitChar '/' identifier
  if parts.length < 2 then none
  else
    let blockchain_part := parts.headD []
    if List.isPrefixOf "eip155:".toList blockchain_part then
      parse_evm_identifier pc parts
    else if blockchain_part = "solana".toList then
      parse_solana_identifier parts
    else none

end Colibri

namespace Colibri

/-- Helper: `splitn(2, ':')` on a string starting with `"eip155:"` yields
    exactly `["eip155", remainder]`. -/
theorem splitn2_eip155 (t : List Char) :
    splitn2 ':' ("eip155:".toList ++ t) = ["eip155".toList, t] := by
  simp [splitn2, List.takeWhile, List.dropWhile]

/-- Helper: a successful EVM parse takes its `token_id` from the third
    top-level segment (`parts.get(2)` in the source). -/
theorem parse_evm_identifier_token_id
    (pc : List Char → Option EvmAddress) (p0 p1 : List Char)
    (rest : List (List Char)) (ident : AssetIdentifier)
    (h : parse_evm_identifier pc (p0 :: p1 :: rest) = some ident) :
    ident.token_id = rest.head? := by
  unfold parse_evm_identifier at h
  repeat' split at h
  all_goals try exact Option.noConfusion h
  all_goals (injection h with h2; subst h2; simp_all)

/-- C5: the asset identifier parser is a pure total function: it is a Lean
    function `List Char → Option AssetIdentifier` (hence deterministic and
    side-effect free), every result is `none` or a fully populated
    identifier, and whenever the EVM branch is entered (the first segment
    starts with `"eip155:"`) the source's debug assertions hold: the first
    segment splits under `splitn(2, ':')` into exactly two parts whose head
    is `"eip155"` — so the direct index `chain_parts[1]` cannot panic. -/
theorem parse_asset_identifier_total_and_asserts
    (pc : List Char → Option EvmAddress) (s : List Char)
    (hevm : List.isPrefixOf "eip155:".toList ((splitChar '/' s).headD []) = true) :
    ((splitn2 ':' ((splitChar '/' s).headD [])).length = 2 ∧
     (splitn2 ':' ((splitChar '/' s).headD [])).headD [] = "eip155".toList) ∧
    (parse_asset_identifier pc s = none ∨
      ∃ ident, parse_asset_identifier pc s = some ident) := by
  constructor
  · obtain ⟨t, ht⟩ := List.isPrefixOf_iff_prefix.mp hevm
    rw [← ht, splitn2_eip155]
    constructor <;> rfl
  · cases h : parse_asset_identifier pc s
    · exact Or.inl rfl
    · exact Or.inr ⟨_, rfl⟩

/-- Witness for C5 at a concrete input. -/
theorem parse_asset_identifier_total_and_asserts_witness :
    (splitn2 ':' ((splitChar '/' "eip155:1/erc20:0xD".toList).headD [])).length = 2 ∧
    (splitn2 ':' ((splitChar '/' "eip155:1/erc20:0xD".toList).headD [])).headD []
      = "eip155".toList := by
  exact (parse_asset_identifier_total_and_asserts (fun _ => none)
    "eip155:1/erc20:0xD".toList (by decide)).1

end Colibri

namespace Colibri

/-- C7 counterexample: on `"eip155:1/erc20:0xD/7"` (valid chain id, asset
    type and — for the given address oracle — checksummed address) there is
    no fourth `/`-separated segment, yet the parser returns
    `token_id = some "7"`, refuting "if no such segment exists, token_id is
    None": the token id is the third segment, not the fourth. -/
theorem parse_token_id_fourth_segment_counterexample :
    (parse_asset_identifier
        (fun a => if a = "0xD".toList then some ⟨[]⟩ else none)
        "eip155:1/erc20:0xD/7".toList).map (fun i => i.token_id)
      = some (some ['7'])
    ∧ (splitChar '/' "eip155:1/erc20:0xD/7".toList).get? 3 = none := by
  decide

/-- C7 (amended): when parsing an EVM asset identifier with a valid chain
    id, asset type and checksummed address, the third `/`-separated segment
    of the input, if present, is taken verbatim (unvalidated) as the
    `token_id` of the result; if no such segment exists, `token_id` is
    `none` (further segments beyond the third are ignored). -/
theorem parse_asset_identifier_token_id_third_segment
    (pc : List Char → Option EvmAddress) (s : List Char) (ident : AssetIdentifier)
    (hevm : List.isPrefixOf "eip155:".toList ((splitChar '/' s).headD []) = true)
    (hp : parse_asset_identifier pc s = some ident) :
    ident.token_id = (splitChar '/' s).get? 2 := by
  cases hsp : splitChar '/' s with
  | nil => exfalso; simp [parse_asset_identifier, hsp] at hp
  | cons p0 tl =>
    cases tl with
    | nil => exfalso; simp [parse_asset_identifier, hsp] at hp
    | cons p1 rest =>
      rw [hsp] at hevm
      have hpre : List.isPrefixOf "eip155:".toList p0 = true := by
        simpa using hevm
      have hpre2 : ['e', 'i', 'p', '1', '5', '5', ':'] <+: p0 := by
        simpa using List.isPrefixOf_iff_prefix.mp hpre
      have hp' : parse_evm_identifier pc (p0 :: p1 :: rest) = some ident := by
        simpa [parse_asset_identifier, hsp, hpre2] using hp
      rw [parse_evm_identifier_token_id pc p0 p1 rest ident hp']
      cases rest <;> simp

/-- Witness for C7 at a concrete input. -/
theorem parse_asset_identifier_token_id_third_segment_witness :
    ({ chain_id := 1, contract_address := AssetAddress.Evm ⟨[]⟩,
       token_id := some ['7'] } : AssetIdentifier).token_id
      = (splitChar '/' "eip155:1/erc20:0xD/7".toList).get? 2 :=
  parse_asset_identifier_token_id_third_segment
    (fun a => if a = "0xD".toList then some ⟨[]⟩ else none)
    "eip155:1/erc20:0xD/7".toList _ (by decide) (by decide)

end Colibri

namespace Colibri

/-- Uppercase hexadecimal digit of a nibble, as produced by Rust format
    specifier `{:02X}`. -/
def hexDigitUpper (n : Nat) : Char :=
  ['0', '1', '2', '3', '4', '5', '6', '7', '8', '9',
   'A', 'B', 'C', 'D', 'E', 'F'].getD n '0'

/-- Scalar values the source leaves unescaped: the Rust range patterns
    `'a'..='z' | 'A'..='Z' | '0'..='9' | '-' | '_' | '.' | '~'` expressed on
    the character's code point. -/
def is_unreserved_code (n : Nat) : Bool :=
  (97 ≤ n && n ≤ 122) || (65 ≤ n && n ≤ 90) || (48 ≤ n && n ≤ 57)
    || n == 45 || n == 95 || n == 46 || n == 126

/-- Model of one arm of `url_encode_identifier` from `icons.rs`: an
    unreserved char passes through; any other char `c` becomes `%XX` with
    `XX` the two-digit uppercase hex of `c as u8`, which in Rust truncates
    the scalar value to its low 8 bits. -/
def url_encode_char (c : Char) : List Char :=
  if is_unreserved_code c.toNat then [c]
  else
    let v := c.toNat % 256
    ['%', hexDigitUpper (v / 16), hexDigitUpper (v % 16)]

/-- Model of `url_encode_identifier` from `icons.rs`: the source maps over
    `chars()` (Unicode scalar values), not over UTF-8 bytes. -/
def url_encode_identifier (s : List Char) : List Char :=
  s.flatMap url_encode_char

/-- Standard UTF-8 byte sequence of one Unicode scalar value; support for
    the spec-side definition below. -/
def utf8Bytes (c : Char) : List Nat :=
  let n := c.toNat
  if n < 128 then [n]
  else if n < 2048 then [192 + n / 64, 128 + n % 64]
  else if n < 65536 then [224 + n / 4096, 128 + (n / 64) % 64, 128 + n % 64]
  else [240 + n / 262144, 128 + (n / 4096) % 64, 128 + (n / 64) % 64, 128 + n % 64]

/-- Spec-side encoding of one byte: unreserved bytes pass through, others
    become `%XX` (uppercase hex). -/
def url_encode_byte_spec (b : Nat) : List Char :=
  if is_unreserved_code b then [Char.ofNat b]
  else ['%', hexDigitUpper (b / 16), hexDigitUpper (b % 16)]

/-- Spec-side definition, following the words of the claim: the encoding of
    a string is the concatenation of the per-byte encodings of its UTF-8
    bytes. -/
def url_encode_identifier_spec (s : List Char) : List Char :=
  (s.flatMap utf8Bytes).flatMap url_encode_byte_spec

/-- C6 counterexample: on the one-character string U+00A1 (inverted
    exclamation mark, UTF-8 bytes C2 A1) the source encodes the single
    char's truncated scalar value as "%A1", not the per-UTF-8-byte "%C2%A1":
    the claimed per-byte equation fails on non-ASCII input. -/
theorem url_encode_identifier_not_per_utf8_byte :
    url_encode_identifier [Char.ofNat 161] = ['%', 'A', '1']
    ∧ url_encode_identifier_spec [Char.ofNat 161] = ['%', 'C', '2', '%', 'A', '1']
    ∧ url_encode_identifier [Char.ofNat 161]
        ≠ url_encode_identifier_spec [Char.ofNat 161] := by
  decide

/-- Helper: on an ASCII character the per-char and per-byte encodings
    coincide. -/
theorem url_encode_char_eq_byte_spec (c : Char) (hc : c.toNat < 128) :
    url_encode_char c = url_encode_byte_spec c.toNat := by
  unfold url_encode_char url_encode_byte_spec
  rcases h : is_unreserved_code c.toNat with _ | _
  · simp [h, Nat.mod_eq_of_lt (by omega : c.toNat < 256)]
  · simp [h, Char.ofNat_toNat]

/-- C6 (amended): the source's percent-encoding operates per Unicode
    character, escaping each non-unreserved char as `%XX` of the low 8 bits
    of its scalar value; it equals the concatenation of the per-byte
    encodings of the UTF-8 bytes exactly on ASCII strings (every scalar
    value below 128), and differs on non-ASCII input. -/
theorem url_encode_identifier_ascii_amended (s : List Char)
    (h : ∀ c ∈ s, c.toNat < 128) :
    url_encode_identifier s = url_encode_identifier_spec s := by
  induction s with
  | nil => rfl
  | cons c t ih =>
    have hc : c.toNat < 128 := h c (List.mem_cons_self c t)
    have ht : ∀ x ∈ t, x.toNat < 128 := fun x hx => h x (List.mem_cons_of_mem c hx)
    have hu : utf8Bytes c = [c.toNat] := by
      unfold utf8Bytes
      simp [hc]
    unfold url_encode_identifier url_encode_identifier_spec at *
    simp only [List.flatMap_cons, hu]
    simp only [List.flatMap_append, List.flatMap_cons, List.flatMap_nil,
      List.append_nil]
    rw [url_encode_char_eq_byte_spec c hc, ih ht]

/-- Witness for C6 at a concrete ASCII input. -/
theorem url_encode_identifier_ascii_amended_witness :
    url_encode_identifier "eip155:1/a".toList
      = url_encode_identifier_spec "eip155:1/a".toList :=
  url_encode_identifier_ascii_amended "eip155:1/a".toList (by decide)

end Colibri

namespace Colibri

def STATUS_OK : Nat := 200

def STATUS_ACCEPTED : Nat := 202

def STATUS_NOT_MODIFIED : Nat := 304

def STATUS_NOT_FOUND : Nat := 404

def STATUS_INTERNAL_SERVER_ERROR : Nat := 500

/-- Constant from `api/icons.rs`. -/
def HOUR_IN_SECS : Nat := 60 * 60

/-- Constant from `api/icons.rs`: negative markers older than this are
    retried. -/
def MAX_ICON_RECHECK_PERIOD : Nat := HOUR_IN_SECS * 12

/-- Modelled from the spec: the task-key prefix for icon queries.  The
    constant lives in `api/constants.rs`, which is not among the provided
    sources; the spec states task keys are `prefix + asset_id`, and no claim
    depends on the concrete prefix value. -/
def QUERY_ICONS_TASK_PREFIX : String := "query_icons"

/-- Task key built in `query_icon_from_payload`:
    `format!("{}_{}", QUERY_ICONS_TASK_PREFIX, payload.asset_id)`. -/
def task_name_for (asset_id : String) : String :=
  QUERY_ICONS_TASK_PREFIX ++ "_" ++ asset_id

/-- Combined outcome of `find_icon` and `fs::metadata` at the start of
    `check_icon`: no file found, a file whose metadata read fails, or a file
    with its length and (optional, seconds) modification time. -/
inductive FsState where
  | noFile
  | metaErr
  | file (len : Nat) (mtime : Option Nat)
deriving DecidableEq, Repr

/-- Observable outcome of one `check_icon` call: HTTP status, the in-flight
    set afterwards, whether a `query_icon_remotely` task was spawned, and
    whether `fs::remove_file` was invoked on the found file. -/
structure CheckOutcome where
  status : Nat
  tasks : List String
  spawned : Bool
  removeAttempted : Bool
deriving DecidableEq, Repr

/-- Model of `query_icon_from_payload` from `api/icons.rs`: insert the task
    key into the in-flight set under the mutex; if it was already present
    return ACCEPTED without spawning, otherwise spawn the pipeline and
    return ACCEPTED.  The set is modelled as a list with membership. -/
def query_icon_from_payload (asset_id : String) (tasks : List String) :
    Nat × List String × Bool :=
  let task_name := task_name_for asset_id
  if task_name ∈ tasks then (STATUS_ACCEPTED, tasks, false)
  else (STATUS_ACCEPTED, task_name :: tasks, true)

/-- Model of `check_icon` from `api/icons.rs`.  `now` is the current time in
    seconds, `removeOk` tells whether an attempted `fs::remove_file`
    succeeds.  Branches follow the source: non-empty file → OK unless
    `force_refresh` is `Some(true)` (then delete, 500 on delete failure,
    else register-and-spawn); empty file → compare the modification-time age
    against `MAX_ICON_RECHECK_PERIOD` (young → NOT_FOUND; stale → best-effort
    delete and a direct `tokio::spawn` of the pipeline, bypassing the
    in-flight set); missing metadata → NOT_FOUND; missing or future
    modification time → 500. -/
def check_icon (fs : FsState) (now : Nat) (removeOk : Bool)
    (force_refresh : Option Bool) (asset_id : String) (tasks : List String) :
    CheckOutcome :=
  match fs with
  | .noFile =>
    let r := query_icon_from_payload asset_id tasks
    { status := r.1, tasks := r.2.1, spawned := r.2.2, removeAttempted := false }
  | .metaErr =>
    { status := STATUS_NOT_FOUND, tasks := tasks, spawned := false,
      removeAttempted := false }
  | .file len mtime =>
    if 0 < len then
      match force_refresh with
      | some true =>
        if removeOk then
          let r := query_icon_from_payload asset_id tasks
          { status := r.1, tasks := r.2.1, spawned := r.2.2,
            removeAttempted := true }
        else
          { status := STATUS_INTERNAL_SERVER_ERROR, tasks := tasks,
            spawned := false, removeAttempted := true }
      | _ =>
        { status := STATUS_OK, tasks := tasks, spawned := false,
          removeAttempted := false }
    else
      match mtime with
      | none =>
        { status := STATUS_INTERNAL_SERVER_ERROR, tasks := tasks,
          spawned := false, removeAttempted := false }
      | some t =>
        if t ≤ now then
          if now - t < MAX_ICON_RECHECK_PERIOD then
            { status := STATUS_NOT_FOUND, tasks := tasks, spawned := false,
              removeAttempted := false }
          else
            { status := STATUS_ACCEPTED, tasks := tasks, spawned := true,
              removeAttempted := true }
        else
          { status := STATUS_INTERNAL_SERVER_ERROR, tasks := tasks,
            spawned := false, removeAttempted := false }

end Colibri

namespace Colibri

/-- C2: on a zero-length negative marker with modification time `t ≤ now`,
    if the age is strictly below the 12-hour TTL the response is NOT_FOUND
    with no deletion, no spawn and an unchanged in-flight set; if the age
    reaches the TTL the marker is deleted (best effort), a background
    pipeline is spawned and the response is ACCEPTED. -/
theorem check_icon_negative_marker_ttl
    (now t : Nat) (removeOk : Bool) (force_refresh : Option Bool)
    (asset_id : String) (tasks : List String) (hle : t ≤ now) :
    (now - t < MAX_ICON_RECHECK_PERIOD →
      check_icon (.file 0 (some t)) now removeOk force_refresh asset_id tasks
        = { status := STATUS_NOT_FOUND, tasks := tasks, spawned := false,
            removeAttempted := false }) ∧
    (MAX_ICON_RECHECK_PERIOD ≤ now - t →
      check_icon (.file 0 (some t)) now removeOk force_refresh asset_id tasks
        = { status := STATUS_ACCEPTED, tasks := tasks, spawned := true,
            removeAttempted := true }) := by
  constructor <;> intro h
  · simp [check_icon, hle, h]
  · simp [check_icon, hle, Nat.not_lt.mpr h]

/-- Witness for C2 at concrete inputs on both sides of the TTL. -/
theorem check_icon_negative_marker_ttl_witness :
    (check_icon (.file 0 (some 0)) 43199 true none "BTC" []
        = { status := STATUS_NOT_FOUND, tasks := [], spawned := false,
            removeAttempted := false }) ∧
    (check_icon (.file 0 (some 0)) 43200 true none "BTC" []
        = { status := STATUS_ACCEPTED, tasks := [], spawned := true,
            removeAttempted := true }) :=
  ⟨(check_icon_negative_marker_ttl 43199 0 true none "BTC" []
      (by decide)).1 (by decide),
   (check_icon_negative_marker_ttl 43200 0 true none "BTC" []
      (by decide)).2 (by decide)⟩

/-- C10: the force_refresh flag is consulted only when the found file is
    non-empty: on a zero-length marker the outcome does not depend on the
    flag at all, and on a marker younger than the TTL a call with
    `force_refresh = Some(true)` still answers NOT_FOUND without deleting
    the marker, spawning a fetch, or touching the in-flight set. -/
theorem check_icon_force_refresh_cannot_bypass_negative_cache
    (now t : Nat) (removeOk : Bool) (asset_id : String) (tasks : List String)
    (hle : t ≤ now) (hyoung : now - t < MAX_ICON_RECHECK_PERIOD) :
    check_icon (.file 0 (some t)) now removeOk (some true) asset_id tasks
      = { status := STATUS_NOT_FOUND, tasks := tasks, spawned := false,
          removeAttempted := false }
    ∧ ∀ (f g : Option Bool) (mt : Option Nat),
        check_icon (.file 0 mt) now removeOk f asset_id tasks
          = check_icon (.file 0 mt) now removeOk g asset_id tasks := by
  constructor
  · simp [check_icon, hle, hyoung]
  · intro f g mt
    rfl

/-- Witness for C10 at a concrete input. -/
theorem check_icon_force_refresh_cannot_bypass_negative_cache_witness :
    check_icon (.file 0 (some 100)) 200 true (some true) "BTC" ["x"]
      = { status := STATUS_NOT_FOUND, tasks := ["x"], spawned := false,
          removeAttempted := false } :=
  (check_icon_force_refresh_cannot_bypass_negative_cache 200 100 true "BTC"
    ["x"] (by decide) (by decide)).1

/-- C1 counterexample: a `Check` on a stale negative marker (age exactly the
    TTL) spawns the fallback pipeline directly via `tokio::spawn` without
    inserting the task key into the in-flight set — refuting the claim that
    every scheduling path of `Check` first successfully inserts
    `prefix + asset_id`. -/
theorem check_icon_stale_marker_schedules_without_insert :
    (check_icon (.file 0 (some 0)) 43200 true none "BTC" []).spawned = true
    ∧ (check_icon (.file 0 (some 0)) 43200 true none "BTC" []).tasks = []
    ∧ task_name_for "BTC"
        ∉ (check_icon (.file 0 (some 0)) 43200 true none "BTC" []).tasks := by
  decide

/-- C1 (amended): on every `Check` path except the stale-negative-marker
    path (that path spawns the pipeline without touching the in-flight set),
    a pipeline is spawned only after the key `prefix + asset_id` was freshly
    and successfully inserted into the in-flight set; consequently a second
    `Check` for the same asset id issued before the background task
    completes (cache still a miss) schedules nothing. -/
theorem check_icon_single_flight_amended
    (fs : FsState) (now : Nat) (removeOk : Bool) (force_refresh : Option Bool)
    (asset_id : String) (tasks : List String)
    (hns : ∀ mt, fs ≠ FsState.file 0 mt)
    (hsp : (check_icon fs now removeOk force_refresh asset_id tasks).spawned
            = true) :
    (task_name_for asset_id ∉ tasks ∧
      (check_icon fs now removeOk force_refresh asset_id tasks).tasks
        = task_name_for asset_id :: tasks) ∧
    (∀ (now2 : Nat) (removeOk2 : Bool) (force2 : Option Bool),
      (check_icon FsState.noFile now2 removeOk2 force2 asset_id
        (check_icon fs now removeOk force_refresh asset_id tasks).tasks).spawned
        = false) := by
  cases fs with
  | noFile =>
    by_cases hmem : task_name_for asset_id ∈ tasks
    · exfalso
      simp [check_icon, query_icon_from_payload, hmem] at hsp
    · refine ⟨⟨hmem, by simp [check_icon, query_icon_from_payload, hmem]⟩,
        fun now2 rok2 f2 => ?_⟩
      simp [check_icon, query_icon_from_payload, hmem]
  | metaErr =>
    exfalso
    simp [check_icon] at hsp
  | file len mtime =>
    have hlen : 0 < len := by
      rcases Nat.eq_zero_or_pos len with h0 | h0
      · exact absurd rfl (h0 ▸ hns mtime)
      · exact h0
    cases force_refresh with
    | none =>
      exfalso
      simp [check_icon, hlen] at hsp
    | some b =>
      cases b with
      | false =>
        exfalso
        simp [check_icon, hlen] at hsp
      | true =>
        cases removeOk with
        | false =>
          exfalso
          simp [check_icon, hlen] at hsp
        | true =>
          by_cases hmem : task_name_for asset_id ∈ tasks
          · exfalso
            simp [check_icon, query_icon_from_payload, hlen, hmem] at hsp
          · refine ⟨⟨hmem, by
              simp [check_icon, query_icon_from_payload, hlen, hmem]⟩,
              fun now2 rok2 f2 => ?_⟩
            simp [check_icon, query_icon_from_payload, hlen, hmem]

/-- Witness for C1 (amended) at a concrete miss state. -/
theorem check_icon_single_flight_amended_witness :
    (task_name_for "BTC" ∉ ([] : List String) ∧
      (check_icon FsState.noFile 0 true none "BTC" []).tasks
        = task_name_for "BTC" :: []) ∧
    (∀ (now2 : Nat) (removeOk2 : Bool) (force2 : Option Bool),
      (check_icon FsState.noFile now2 removeOk2 force2 "BTC"
        (check_icon FsState.noFile 0 true none "BTC" []).tasks).spawned
        = false) :=
  check_icon_single_flight_amended FsState.noFile 0 true none "BTC" []
    (fun mt h => FsState.noConfusion h) (by decide)

end Colibri

namespace Colibri

/-- Model of `write_icon_to_file` from `icons.rs`: the write result is
    discarded with `let _ = ...` after logging, so the function returns unit
    to its caller whether or not the filesystem write succeeded; on success
    the cache file holds the new bytes, on failure the previous content
    remains. -/
def write_icon_to_file (writeOk : Bool) (prev : Option (List Nat))
    (icon_bytes : List Nat) : Option (List Nat) × Unit :=
  if writeOk then (some icon_bytes, ()) else (prev, ())

/-- C8 counterexample: with a non-empty cached file, `force_refresh` set and
    a failing `fs::remove_file`, the `Check` path surfaces
    INTERNAL_SERVER_ERROR — a filesystem error that is not a failure of the
    final cache write (no write is even attempted); meanwhile the final
    write's own failure is swallowed: `write_icon_to_file` returns unit to
    its caller whether or not the write succeeds. -/
theorem check_icon_surfaces_remove_failure :
    check_icon (.file 5 (some 0)) 0 false (some true) "BTC" []
      = { status := STATUS_INTERNAL_SERVER_ERROR, tasks := [],
          spawned := false, removeAttempted := true }
    ∧ (write_icon_to_file false (some []) [7]).2
        = (write_icon_to_file true (some []) [7]).2 := by
  decide

/-- C8 (amended): on the `Check` entry point an internal error is surfaced
    exactly when a file was found with readable metadata and either the
    non-empty file could not be deleted under `force_refresh = Some(true)`,
    or the file is the zero-length marker and its modification time is
    unavailable or lies in the future; failures of the final cache write are
    never surfaced — the background pipeline (and `write_icon_to_file`)
    return unit to their callers regardless of outcome. -/
theorem check_icon_internal_error_characterization
    (fs : FsState) (now : Nat) (removeOk : Bool) (force_refresh : Option Bool)
    (asset_id : String) (tasks : List String) :
    (check_icon fs now removeOk force_refresh asset_id tasks).status
        = STATUS_INTERNAL_SERVER_ERROR
      ↔ ∃ len mtime, fs = FsState.file len mtime ∧
          ((0 < len ∧ force_refresh = some true ∧ removeOk = false) ∨
           (len = 0 ∧ (mtime = none ∨ ∃ t, mtime = some t ∧ now < t))) := by
  cases fs with
  | noFile =>
    constructor
    · intro h
      exfalso
      revert h
      simp only [check_icon, query_icon_from_payload]
      split <;> simp [STATUS_ACCEPTED, STATUS_INTERNAL_SERVER_ERROR]
    · rintro ⟨len, mtime, h, -⟩
      exact FsState.noConfusion h
  | metaErr =>
    constructor
    · intro h
      exfalso
      simp [check_icon, STATUS_NOT_FOUND, STATUS_INTERNAL_SERVER_ERROR] at h
    · rintro ⟨len, mtime, h, -⟩
      exact FsState.noConfusion h
  | file len mtime =>
    have key :
        (check_icon (FsState.file len mtime) now removeOk force_refresh
            asset_id tasks).status = STATUS_INTERNAL_SERVER_ERROR
          ↔ ((0 < len ∧ force_refresh = some true ∧ removeOk = false) ∨
             (len = 0 ∧ (mtime = none ∨ ∃ t, mtime = some t ∧ now < t))) := by
      by_cases hlen : 0 < len
      · cases force_refresh with
        | none =>
          simp only [check_icon, hlen, if_true]
          constructor
          · intro h
            exact absurd h (by simp [STATUS_OK, STATUS_INTERNAL_SERVER_ERROR])
          · rintro (⟨-, hf, -⟩ | ⟨h0, -⟩)
            · exact Option.noConfusion hf
            · omega
        | some b =>
          cases b with
          | false =>
            simp only [check_icon, hlen, if_true]
            constructor
            · intro h
              exact absurd h
                (by simp [STATUS_OK, STATUS_INTERNAL_SERVER_ERROR])
            · rintro (⟨-, hf, -⟩ | ⟨h0, -⟩)
              · simp at hf
              · omega
          | true =>
            cases removeOk with
            | false =>
              simp only [check_icon, hlen, if_true]
              constructor
              · intro h
                simp [hlen]
              · intro h
                rfl
            | true =>
              simp only [check_icon, hlen, if_true, query_icon_from_payload]
              constructor
              · intro h
                exfalso
                revert h
                split <;>
                  simp [STATUS_ACCEPTED, STATUS_INTERNAL_SERVER_ERROR]
              · rintro (⟨-, -, hf⟩ | ⟨h0, -⟩)
                · exact Bool.noConfusion hf
                · omega
      · have hlen0 : len = 0 := by omega
        subst hlen0
        cases mtime with
        | none =>
          simp only [check_icon]
          constructor
          · intro h
            simp
          · intro h
            rfl
        | some t =>
          by_cases hle : t ≤ now
          · by_cases hyoung : now - t < MAX_ICON_RECHECK_PERIOD
            · simp only [check_icon, hle, hyoung, if_true]
              constructor
              · intro h
                exact absurd h
                  (by simp [STATUS_NOT_FOUND, STATUS_INTERNAL_SERVER_ERROR])
              · rintro (⟨h0, -⟩ | ⟨-, hm | ⟨t2, ht2, hnow⟩⟩)
                · omega
                · exact Option.noConfusion hm
                · injection ht2 with e
                  omega
            · simp only [check_icon, hle, hyoung, if_true, if_false]
              constructor
              · intro h
                exact absurd h
                  (by simp [STATUS_ACCEPTED, STATUS_INTERNAL_SERVER_ERROR])
              · rintro (⟨h0, -⟩ | ⟨-, hm | ⟨t2, ht2, hnow⟩⟩)
                · omega
                · exact Option.noConfusion hm
                · injection ht2 with e
                  omega
          · simp only [check_icon, hle]
            constructor
            · intro h
              simp
              omega
            · intro h
              rfl
    constructor
    · intro h
      exact ⟨len, mtime, rfl, key.mp h⟩
    · rintro ⟨l2, m2, heq, hc⟩
      injection heq with e1 e2
      subst e1
      subst e2
      exact key.mpr hc

end Colibri

namespace Colibri

/-- Error type from `icons.rs`. -/
inductive FileTypeError where
  | UnsupportedFileType
deriving DecidableEq, Repr

/-- Model of `get_headers` from `icons.rs`: map a file extension to the
    response headers, rejecting any extension outside the supported image
    types. -/
def get_headers (extension : String) :
    Except FileTypeError (List (String × String)) :=
  match (match extension with
         | "png" => some "image/png"
         | "svg" => some "image/svg+xml"
         | "jpg" => some "image/jpeg"
         | "jpeg" => some "image/jpeg"
         | "gif" => some "image/gif"
         | "webp" => some "image/webp"
         | _ => none) with
  | none => Except.error FileTypeError.UnsupportedFileType
  | some content_type =>
    Except.ok [("Content-Type", content_type), ("mimetype", content_type)]

/-- On-disk state seen by `get_icon`: either `find_icon` found nothing, or
    it found a path whose extension is `ext` (`none` when the path has no
    extension) and whose read yields `content` (`none` on a read error). -/
inductive IconLookup where
  | noFile
  | file (ext : Option String) (content : Option (List Nat))
deriving DecidableEq, Repr

/-- Model of `retrieve_icon_bytes` from `icons.rs`: needs a stringly-typed
    extension on the path and a successful read. -/
def retrieve_icon_bytes (ext : Option String) (content : Option (List Nat)) :
    Option (List Nat × String) :=
  match ext with
  | none => none
  | some e =>
    match content with
    | none => none
    | some bytes => some (bytes, e)

/-- Model of `get_icon` from `icons.rs`.  `md5hex` abstracts the external
    md5 crate (`format!("{:x}", md5::compute(bytes))`).  Returns status,
    optional headers and optional body exactly as the source's triple. -/
def get_icon (md5hex : List Nat → String) (lookup : IconLookup)
    (match_header : Option String) :
    Nat × Option (List (String × String)) × Option (List Nat) :=
  match lookup with
  | .noFile => (STATUS_NOT_FOUND, none, none)
  | .file ext content =>
    match retrieve_icon_bytes ext content with
    | none => (STATUS_NOT_FOUND, none, none)
    | some (bytes, extension) =>
      match get_headers extension with
      | .error FileTypeError.UnsupportedFileType => (STATUS_NOT_FOUND, none, none)
      | .ok headers =>
        let hash := md5hex bytes
        if match_header.all (fun h => hash != h) then
          (STATUS_OK, some headers, some bytes)
        else
          (STATUS_NOT_MODIFIED, some headers, none)

/-- C3: `Get` is a pure function of the on-disk state: no file → NOT_FOUND;
    a found file with supported extension and a matching hash header →
    NOT_MODIFIED with headers and no body; header absent or different → OK
    with exactly the file's bytes and the extension-derived headers; a found
    file with an unsupported extension → NOT_FOUND even though a file
    exists. -/
theorem get_icon_cases (md5hex : List Nat → String)
    (bytes : List Nat) (e : String) (headers : List (String × String))
    (hsup : get_headers e = Except.ok headers) :
    (∀ mh, get_icon md5hex IconLookup.noFile mh
        = (STATUS_NOT_FOUND, none, none)) ∧
    (get_icon md5hex (.file (some e) (some bytes)) (some (md5hex bytes))
        = (STATUS_NOT_MODIFIED, some headers, none)) ∧
    (get_icon md5hex (.file (some e) (some bytes)) none
        = (STATUS_OK, some headers, some bytes)) ∧
    (∀ h, h ≠ md5hex bytes →
      get_icon md5hex (.file (some e) (some bytes)) (some h)
        = (STATUS_OK, some headers, some bytes)) ∧
    (∀ e2, get_headers e2 = Except.error FileTypeError.UnsupportedFileType →
      ∀ mh, get_icon md5hex (.file (some e2) (some bytes)) mh
        = (STATUS_NOT_FOUND, none, none)) := by
  refine ⟨fun mh => rfl, ?_, ?_, ?_, ?_⟩
  · simp [get_icon, retrieve_icon_bytes, hsup]
  · simp [get_icon, retrieve_icon_bytes, hsup]
  · intro h hne
    simp [get_icon, retrieve_icon_bytes, hsup, bne_iff_ne]
    exact fun heq => absurd heq.symm hne
  · intro e2 hbad mh
    simp [get_icon, retrieve_icon_bytes, hbad]

/-- Witness for C3 at a concrete state with a concrete hash function. -/
theorem get_icon_cases_witness :
    get_icon (fun _ => "h1") (.file (some "png") (some [1, 2])) (some "h1")
      = (STATUS_NOT_MODIFIED,
         some [("Content-Type", "image/png"), ("mimetype", "image/png")],
         none) :=
  (get_icon_cases (fun _ => "h1") [1, 2] "png"
    [("Content-Type", "image/png"), ("mimetype", "image/png")] rfl).2.1

end Colibri

namespace Colibri

/-- The fatal "not a contract of this shape" patterns from
    `query_uniswap_position_icon` in `icons.rs`. -/
def error_patterns : List String :=
  ["function selector was not recognized",
   "invalid function signature",
   "contract code"]

/-- Model of Rust `str::contains(pattern)`: substring containment. -/
def contains_pattern (error_message pattern : String) : Bool :=
  decide (pattern.toList <:+: error_message.toList)

/-- Error classification from `query_uniswap_position_icon`: an error whose
    text contains any of the known patterns is judged fatal and
    node-independent. -/
def is_fatal_contract_error (error_message : String) : Bool :=
  error_patterns.any (fun pattern => contains_pattern error_message pattern)

/-- Outcome of contacting one RPC node inside
    `query_uniswap_position_icon`: connecting failed, the `tokenURI` call
    failed with an error message, or the call returned a token URI. -/
inductive NodeOutcome where
  | connectErr
  | callErr (error_message : String)
  | callOk (token_uri : String)
deriving DecidableEq, Repr

/-- Model of the node loop of `query_uniswap_position_icon` from
    `icons.rs`.  Connection failure continues with the next node; a call
    error continues unless its message matches a fatal pattern, in which
    case the loop breaks; on a successful call, `decode` abstracts the
    data-URI processing chain (strip the `data:application/json;base64,`
    prefix, base64-decode, JSON-parse, extract the `image` field, strip the
    `data:image/svg+xml;base64,` prefix, base64-decode): in the source any
    failure in that chain breaks the loop and success returns, which is
    exactly the `Option` behaviour of `decode`.  The second component
    counts how many nodes were attempted. -/
def query_uniswap_position_nodes (decode : String → Option (List Nat)) :
    List NodeOutcome → Option (List Nat × String) × Nat
  | [] => (none, 0)
  | node :: rest =>
    match node with
    | .connectErr =>
      let r := query_uniswap_position_nodes decode rest
      (r.1, r.2 + 1)
    | .callErr msg =>
      if is_fatal_contract_error msg then (none, 1)
      else
        let r := query_uniswap_position_nodes decode rest
        (r.1, r.2 + 1)
    | .callOk uri =>
      match decode uri with
      | some image_data => (some (image_data, "svg"), 1)
      | none => (none, 1)

/-- A node outcome the loop treats as transient: connection failure or a
    call error without a fatal pattern. -/
def transient (o : NodeOutcome) : Prop :=
  o = NodeOutcome.connectErr
    ∨ ∃ m, o = NodeOutcome.callErr m ∧ is_fatal_contract_error m = false

/-- Helper: a transient node outcome passes control to the next node,
    adding one attempt. -/
theorem query_uniswap_position_nodes_transient_step
    (decode : String → Option (List Nat)) (o : NodeOutcome)
    (l : List NodeOutcome) (ht : transient o) :
    query_uniswap_position_nodes decode (o :: l)
      = ((query_uniswap_position_nodes decode l).1,
         (query_uniswap_position_nodes decode l).2 + 1) := by
  rcases ht with rfl | ⟨m, rfl, hm⟩
  · rfl
  · simp [query_uniswap_position_nodes, hm]

/-- C4: in the on-chain NFT metadata fetch, a `tokenURI` error matching a
    known "not a contract of this shape" pattern aborts the whole fetch with
    `None` without attempting any later node (the attempt count stops at the
    failing node, independent of what follows), whereas any other call error
    and any connection failure proceed to the next node in order. -/
theorem uniswap_fetch_error_classification
    (decode : String → Option (List Nat)) (pre rest : List NodeOutcome)
    (msg : String) (hpre : ∀ o ∈ pre, transient o)
    (hfatal : is_fatal_contract_error msg = true) :
    (query_uniswap_position_nodes decode
        (pre ++ NodeOutcome.callErr msg :: rest)
      = (none, pre.length + 1)) ∧
    (∀ (o : NodeOutcome) (l : List NodeOutcome), transient o →
      query_uniswap_position_nodes decode (o :: l)
        = ((query_uniswap_position_nodes decode l).1,
           (query_uniswap_position_nodes decode l).2 + 1)) := by
  refine ⟨?_, fun o l ht =>
    query_uniswap_position_nodes_transient_step decode o l ht⟩
  induction pre with
  | nil => simp [query_uniswap_position_nodes, hfatal]
  | cons o pre ih =>
    have ho : transient o := hpre o (List.mem_cons_self o pre)
    have hpre2 : ∀ x ∈ pre, transient x :=
      fun x hx => hpre x (List.mem_cons_of_mem o hx)
    rw [List.cons_append,
      query_uniswap_position_nodes_transient_step decode o _ ho, ih hpre2]
    simp [Nat.add_comm, Nat.add_assoc]

/-- Witness for C4: two transient nodes (a connection failure and a
    timeout-style RPC error) are attempted, the fatal selector error on the
    third node aborts, and the fourth node is never attempted. -/
theorem uniswap_fetch_error_classification_witness :
    query_uniswap_position_nodes (fun _ => none)
        ([NodeOutcome.connectErr, NodeOutcome.callErr "timed out"]
          ++ NodeOutcome.callErr "function selector was not recognized"
            :: [NodeOutcome.callOk "unreached"])
      = (none, 3) :=
  (uniswap_fetch_error_classification (fun _ => none)
    [NodeOutcome.connectErr, NodeOutcome.callErr "timed out"]
    [NodeOutcome.callOk "unreached"]
    "function selector was not recognized"
    (by
      intro o ho
      simp only [List.mem_cons, List.not_mem_nil, or_false] at ho
      rcases ho with rfl | rfl
      · exact Or.inl rfl
      · exact Or.inr ⟨"timed out", rfl, by decide⟩)
    (by decide)).1

end Colibri

namespace Colibri

/-- CDN base URL constant from `icons.rs`. -/
def SMOLDAPP_BASE_URL : String :=
  "https://raw.githubusercontent.com/SmolDapp/tokenAssets/refs/heads/main/tokens"

/-- Lowercase hexadecimal digit of a nibble. -/
def hexDigitLower (n : Nat) : Char :=
  match n with
  | 0 => '0' | 1 => '1' | 2 => '2' | 3 => '3'
  | 4 => '4' | 5 => '5' | 6 => '6' | 7 => '7'
  | 8 => '8' | 9 => '9' | 10 => 'a' | 11 => 'b'
  | 12 => 'c' | 13 => 'd' | 14 => 'e' | _ => 'f'

/-- Model of `AssetAddress::as_str` from `blockchain/utils.rs`: an EVM
    address is rendered by alloy's checksummed `Display` and then
    ASCII-lowercased, whose net effect is `0x` followed by the lowercase hex
    digits of the 20 bytes; a Solana address is returned verbatim
    (`address.clone()`), with no case change. -/
def asset_address_as_str (a : AssetAddress) : String :=
  match a with
  | .Evm address =>
    String.mk ('0' :: 'x' :: address.bytes.flatMap
      (fun b => [hexDigitLower (b.val / 16), hexDigitLower (b.val % 16)]))
  | .Solana address => String.mk address

/-- Model of `smoldapp_image_query` from `icons.rs`: `fetch` abstracts the
    HTTP GET (10s timeout); `some bytes` models a success-status response
    with a decodable body. -/
def smoldapp_image_query (fetch : String → Option (List Nat)) (url : String)
    (extension : String) : Option (List Nat × String) :=
  (fetch url).map (fun bytes => (bytes, extension))

/-- The `for (url, extension) in urls` loop of
    `query_token_icon_and_extension`: first success wins. -/
def first_image_success (fetch : String → Option (List Nat)) :
    List (String × String) → Option (List Nat × String)
  | [] => none
  | (url, extension) :: rest =>
    match smoldapp_image_query fetch url extension with
    | some response => some response
    | none => first_image_success fetch rest

/-- Model of `query_token_icon_and_extension` from `icons.rs`. -/
def query_token_icon_and_extension (fetch : String → Option (List Nat))
    (chain_id : Nat) (address : AssetAddress) (base_url : String) :
    Option (List Nat × String) :=
  let address_str := asset_address_as_str address
  let urls := [
    (base_url ++ "/" ++ toString chain_id ++ "/" ++ address_str
      ++ "/logo.svg", "svg"),
    (base_url ++ "/" ++ toString chain_id ++ "/" ++ address_str
      ++ "/logo-32.png", "png")]
  first_image_success fetch urls

/-- C9 counterexample: the parsed Solana identifier for mint
    `So1...112` keeps its uppercase `S`; `as_str` returns it verbatim, so
    the URLs tried are not built from the lowercased address: a server that
    only answers the lowercased URL yields `none`, where the claim predicts
    a success. -/
theorem query_token_icon_solana_not_lowercased :
    (parse_asset_identifier (fun _ => none)
        "solana/token:So11111111111111111111111111111111111111112".toList
      = some { chain_id := SOLANA_CHAIN_ID,
               contract_address := AssetAddress.Solana
                 "So11111111111111111111111111111111111111112".toList,
               token_id := none })
    ∧ (asset_address_as_str (AssetAddress.Solana
          "So11111111111111111111111111111111111111112".toList)).toList
        ≠ ((asset_address_as_str (AssetAddress.Solana
          "So11111111111111111111111111111111111111112".toList)).toList.map
            Char.toLower)
    ∧ query_token_icon_and_extension
        (fun u =>
          if u = "B/1151111081099710/so11111111111111111111111111111111111111112/logo.svg"
          then some [1] else none)
        SOLANA_CHAIN_ID
        (AssetAddress.Solana
          "So11111111111111111111111111111111111111112".toList) "B"
      = none := by
  decide

/-- Helper: lowercase hex digits are fixed by `Char.toLower`. -/
theorem toLower_hexDigitLower (n : Nat) :
    Char.toLower (hexDigitLower n) = hexDigitLower n := by
  unfold hexDigitLower
  split <;> decide

/-- C9 (amended): the CDN token-icon fetch tries exactly two URLs in order,
    `{base}/{chainId}/{as_str}/logo.svg` then
    `{base}/{chainId}/{as_str}/logo-32.png`, returning the first success
    with extension "svg" respectively "png" and `none` if both fail, where
    the address component `as_str` is the lowercased hex address for EVM
    identifiers but the verbatim (not lowercased) address for Solana
    identifiers. -/
theorem query_token_icon_and_extension_url_order
    (fetch : String → Option (List Nat)) (chain_id : Nat)
    (address : AssetAddress) (base_url : String) :
    (query_token_icon_and_extension fetch chain_id address base_url
      = match fetch (base_url ++ "/" ++ toString chain_id ++ "/"
            ++ asset_address_as_str address ++ "/logo.svg") with
        | some bytes => some (bytes, "svg")
        | none =>
          match fetch (base_url ++ "/" ++ toString chain_id ++ "/"
              ++ asset_address_as_str address ++ "/logo-32.png") with
          | some bytes => some (bytes, "png")
          | none => none)
    ∧ (∀ ea : EvmAddress,
        (asset_address_as_str (AssetAddress.Evm ea)).toList.map Char.toLower
          = (asset_address_as_str (AssetAddress.Evm ea)).toList)
    ∧ (∀ sa : List Char,
        asset_address_as_str (AssetAddress.Solana sa) = String.mk sa) := by
  refine ⟨?_, ?_, fun sa => rfl⟩
  · cases h1 : fetch (base_url ++ "/" ++ toString chain_id ++ "/"
        ++ asset_address_as_str address ++ "/logo.svg") with
    | some bytes =>
      simp [query_token_icon_and_extension, first_image_success,
        smoldapp_image_query, h1]
    | none =>
      cases h2 : fetch (base_url ++ "/" ++ toString chain_id ++ "/"
          ++ asset_address_as_str address ++ "/logo-32.png") with
      | some bytes =>
        simp [query_token_icon_and_extension, first_image_success,
          smoldapp_image_query, h1, h2]
      | none =>
        simp [query_token_icon_and_extension, first_image_success,
          smoldapp_image_query, h1, h2]
  · intro ea
    obtain ⟨bs⟩ := ea
    show List.map Char.toLower ('0' :: 'x' :: bs.flatMap
        (fun b => [hexDigitLower (b.val / 16), hexDigitLower (b.val % 16)]))
      = '0' :: 'x' :: bs.flatMap
        (fun b => [hexDigitLower (b.val / 16), hexDigitLower (b.val % 16)])
    rw [List.map_cons, List.map_cons]
    refine congrArg₂ _ rfl (congrArg₂ _ rfl ?_)
    induction bs with
    | nil => rfl
    | cons b t ih =>
      simp [List.flatMap_cons, toLower_hexDigitLower, ih]

end Colibri
